import Mathlib

/-!
Verification development for the Shopify SSO token codec and session helpers.

The decode path is `validate_shopify_sso_token` in `utils/shopify_sso.py`;
session helpers are `get_user_from_session` and `delete_session` in
`utils/auth.py`; the optional-field normalization is the callback in
`app/routes/auth/shopify_callback.py`.

Byte strings are `List Nat` (each element a byte value). The cryptographic
primitives the code obtains from external libraries (SHA-256, HMAC-SHA256,
AES-CBC) and the external parsers (`json.loads`, `datetime.fromisoformat`)
are parameters of the embedding, gathered in `TokenCrypto`; properties of
the real primitives (digest length 32, decryption inverting encryption,
absence of an HMAC collision at a given pair of inputs) enter theorems as
hypotheses, never as axioms. Everything else — base64url, PKCS#7 padding,
the control flow of the validator — is translated concretely from the
source. The Python function collapses every failure to `None`; the
embedding refines the distinct exit points of the source into the error
kinds of the specification's taxonomy (`Malformed`, `BadSignature`,
`InvalidPayload`, `Expired`) so that claims about kinds are statable.
-/

/-- A JSON scalar value as it appears in the decoded customer-data mapping. -/
inductive JVal where
  | str : String → JVal
  | num : Int → JVal
  | null : JVal
deriving DecidableEq

/-- The decoded customer-data mapping (a JSON object), as an association list.
`get` models Python's `dict.get`: the value under the first matching key, or
`none` when the key is absent. -/
structure Payload where
  fields : List (String × JVal)
deriving DecidableEq

def Payload.get (p : Payload) (k : String) : Option JVal :=
  (p.fields.find? (fun kv => kv.1 = k)).map (fun kv => kv.2)

/-- Python truthiness of an optional JSON value: `None` and absent are falsy,
a string is truthy when non-empty, a number when non-zero. -/
def truthy : Option JVal → Bool
  | none => false
  | some (JVal.str s) => !(s = "")
  | some (JVal.num n) => !(n = 0)
  | some JVal.null => false

/-- Python's short-circuit `a or b` on optional JSON values: `a` when truthy,
otherwise `b`. -/
def pyOr (a b : Option JVal) : Option JVal :=
  if truthy a then a else b

/-- A Python `datetime`: a wall-clock reading in seconds together with an
optional UTC offset in seconds (`none` models a naive datetime). Subtracting
two datetimes that carry the same `tz` (the only case the source produces)
yields `(wall₁ - tz₁) - (wall₂ - tz₂)` seconds. -/
structure PyDateTime where
  wall : Int
  tz : Option Int
deriving DecidableEq

/-- The specification's error taxonomy for the decode path (§7). The Python
source returns `None` at every failure; each constructor tags one family of
exit points of `validate_shopify_sso_token`. -/
inductive TokenError where
  | malformed
  | badSignature
  | invalidPayload
  | expired
deriving DecidableEq

instance : DecidableEq (Except TokenError Payload) := fun a b =>
  match a, b with
  | Except.ok x, Except.ok y =>
      if h : x = y then isTrue (by rw [h])
      else isFalse (fun hh => h (by injection hh))
  | Except.error x, Except.error y =>
      if h : x = y then isTrue (by rw [h])
      else isFalse (fun hh => h (by injection hh))
  | Except.ok _, Except.error _ => isFalse (fun hh => Except.noConfusion hh)
  | Except.error _, Except.ok _ => isFalse (fun hh => Except.noConfusion hh)

/- ### Base64url (Python `base64.urlsafe_b64decode` / `urlsafe_b64encode`) -/

/-- Value of a base64 alphabet character, accepting both the standard and the
URL-safe alphabet, as `urlsafe_b64decode` does after its `-_` to `+/`
translation. -/
def b64Val (ch : Char) : Option Nat :=
  if 'A' ≤ ch ∧ ch ≤ 'Z' then some (ch.toNat - 65)
  else if 'a' ≤ ch ∧ ch ≤ 'z' then some (ch.toNat - 71)
  else if '0' ≤ ch ∧ ch ≤ '9' then some (ch.toNat + 4)
  else if ch = '+' ∨ ch = '-' then some 62
  else if ch = '/' ∨ ch = '_' then some 63
  else none

/-- URL-safe base64 alphabet character for a 6-bit value. -/
def b64Char (n : Nat) : Char :=
  if n < 26 then Char.ofNat (65 + n)
  else if n < 52 then Char.ofNat (97 + (n - 26))
  else if n < 62 then Char.ofNat (48 + (n - 52))
  else if n = 62 then '-' else '_'

/-- Bytes to 6-bit values, including the partial final group (an unpadded
encoder emits 2 characters for 1 trailing byte and 3 for 2). -/
def b64EncodeVals : List Nat → List Nat
  | a :: b :: c :: rest =>
      a / 4 :: ((a % 4) * 16 + b / 16) :: ((b % 16) * 4 + c / 64) :: c % 64 ::
        b64EncodeVals rest
  | [a] => [a / 4, (a % 4) * 16]
  | [a, b] => [a / 4, (a % 4) * 16 + b / 16, (b % 16) * 4]
  | [] => []

/-- 6-bit values back to bytes; the bits an encoder leaves unused in a partial
final group are ignored, as CPython's decoder ignores them. -/
def b64DecodeVals : List Nat → List Nat
  | a :: b :: c :: d :: rest =>
      (a * 4 + b / 16) :: ((b % 16) * 16 + c / 4) :: ((c % 4) * 64 + d) ::
        b64DecodeVals rest
  | [a, b] => [a * 4 + b / 16]
  | [a, b, c] => [a * 4 + b / 16, (b % 16) * 16 + c / 4]
  | _ => []

/-- Python `base64.urlsafe_b64decode` on a text token. Characters outside the
alphabet are discarded (CPython's non-strict decoder), `=` may appear only as
trailing padding, and the padded length must be a whole number of 4-character
groups — `urlsafe_b64decode` raises `binascii.Error: Incorrect padding`
otherwise, which the source's broad `except` turns into a failure. -/
def b64urlDecode (s : String) : Option (List Nat) :=
  let cs := s.data.filter (fun ch => (b64Val ch).isSome || ch = '=')
  let ds := cs.takeWhile (fun ch => !(ch = '='))
  let pads := cs.length - ds.length
  if cs.drop ds.length ≠ List.replicate pads '=' then none
  else if 2 < pads then none
  else if (ds.length + pads) % 4 ≠ 0 then none
  else some (b64DecodeVals (ds.filterMap b64Val))

/-- Base64url encoding without padding characters, as the specification's
encode path (§4.3 step 5) prescribes. -/
def b64urlEncodeNoPad (bs : List Nat) : String :=
  String.mk ((b64EncodeVals bs).map b64Char)

/- ### PKCS#7 (block size 128 bits) -/

/-- PKCS#7 padding to 16-byte blocks: append n copies of n, 1 ≤ n ≤ 16. -/
def pkcs7Pad (bs : List Nat) : List Nat :=
  let n := 16 - bs.length % 16
  bs ++ List.replicate n n

/-- PKCS#7 unpadding as the `cryptography` library's unpadder performs it:
the data must be a non-zero whole number of 16-byte blocks, the final byte n
must satisfy 1 ≤ n ≤ 16, and the last n bytes must all equal n; otherwise the
unpadder raises, which the source maps to a failure. -/
def pkcs7Unpad (bs : List Nat) : Option (List Nat) :=
  if bs.length = 0 ∨ bs.length % 16 ≠ 0 then none
  else
    let n := (bs.getLast?).getD 0
    if 1 ≤ n ∧ n ≤ 16 ∧ bs.drop (bs.length - n) = List.replicate n n then
      some (bs.take (bs.length - n))
    else none

/- ### The token validator, `utils/shopify_sso.py` -/

/-- The external primitives and parsers the validator calls. `sha256` and
`hmacSha256` stand for `hashlib.sha256(...).digest()` and
`hmac.new(..., hashlib.sha256).digest()`; `aesCbcEncrypt`/`aesCbcDecrypt`
for the `cryptography` AES-CBC cipher (key, IV, data); `jsonSerialize` and
`jsonParse` for `json.dumps`/`json.loads` on UTF-8 bytes; `isoParse` for
`datetime.fromisoformat`, returning `none` where the library would raise. -/
structure TokenCrypto where
  sha256 : List Nat → List Nat
  hmacSha256 : List Nat → List Nat → List Nat
  aesCbcEncrypt : List Nat → List Nat → List Nat → List Nat
  aesCbcDecrypt : List Nat → List Nat → List Nat → List Nat
  jsonSerialize : Payload → List Nat
  jsonParse : List Nat → Option Payload
  isoParse : String → Option PyDateTime

/-- UTF-8 encoding of one character. -/
def utf8Bytes (c : Char) : List Nat :=
  let n := c.toNat
  if n < 128 then [n]
  else if n < 2048 then [192 + n / 64, 128 + n % 64]
  else if n < 65536 then [224 + n / 4096, 128 + (n / 64) % 64, 128 + n % 64]
  else [240 + n / 262144, 128 + (n / 4096) % 64, 128 + (n / 64) % 64, 128 + n % 64]

/-- UTF-8 bytes of a string, `str.encode()`. -/
def strBytes (s : String) : List Nat :=
  s.data.foldr (fun c acc => utf8Bytes c ++ acc) []

/-- Python `str.replace('Z', '+00:00')` on the character list: every `Z`
becomes `+00:00`. -/
def replaceZList : List Char → List Char
  | [] => []
  | c :: rest =>
      if c = 'Z' then '+' :: '0' :: '0' :: ':' :: '0' :: '0' :: replaceZList rest
      else c :: replaceZList rest

/-- Python `created_at_str.replace('Z', '+00:00')` (line 77 of
`validate_shopify_sso_token`). -/
def replaceZ (s : String) : String :=
  String.mk (replaceZList s.data)

/-- Key derivation, lines 39–41 of `validate_shopify_sso_token`:
one SHA-256 of the secret; bytes [0:16] are the encryption key and bytes
[16:32] the signature key. -/
def derive_keys (sha256 : List Nat → List Nat) (secret : String) :
    List Nat × List Nat :=
  let key_material := sha256 (strBytes secret)
  (key_material.take 16, (key_material.drop 16).take 16)

def TOKEN_EXPIRY_MINUTES : ℚ := 15

/-- The timedelta of lines 78–79: `now` is `datetime.utcnow()` (a naive UTC
wall-clock reading) with its `tzinfo` replaced by the parsed timestamp's
`tzinfo`; `(now - created_at).total_seconds()` subtracts the two instants,
each normalized by its own (identical) offset. -/
def diffSeconds (nowUtc : Int) (created_at : PyDateTime) : Int :=
  let now : PyDateTime := { wall := nowUtc, tz := created_at.tz }
  (now.wall - now.tz.getD 0) - (created_at.wall - created_at.tz.getD 0)

/-- The age in minutes, line 79: `diff_minutes = (now - created_at).total_seconds() / 60`. -/
def diffMinutes (nowUtc : Int) (created_at : PyDateTime) : ℚ :=
  (diffSeconds nowUtc created_at : ℚ) / 60

/-- Lines 72–84 of `validate_shopify_sso_token`: extract the creation
timestamp under either accepted key name with Python `or`, reject a missing
(falsy) value, normalize a `Z` suffix, parse, and compare the age to
`TOKEN_EXPIRY_MINUTES`. A non-string truthy value or an unparseable string
raises inside the `try` (`AttributeError` / `ValueError`), collapsing to a
failure. No other field — in particular not `email` — is inspected.
The source's guard is `diff_minutes > TOKEN_EXPIRY_MINUTES` with
`diff_minutes = diff_seconds / 60`; over exact arithmetic this is the
integer comparison `15 * 60 < diff_seconds`, the form used here so the
definition stays kernel-computable — `expiry_guard_iff` below proves the
two forms equal. -/
def checkFreshness (isoParse : String → Option PyDateTime) (nowUtc : Int)
    (customer_data : Payload) : Except TokenError Payload :=
  let created_at_val := pyOr (customer_data.get "createdAt") (customer_data.get "created_at")
  if truthy created_at_val = false then Except.error TokenError.invalidPayload
  else
    match created_at_val with
    | some (JVal.str created_at_str) =>
        match isoParse (replaceZ created_at_str) with
        | none => Except.error TokenError.invalidPayload
        | some created_at =>
            if 15 * 60 < diffSeconds nowUtc created_at then
              Except.error TokenError.expired
            else Except.ok customer_data
    | _ => Except.error TokenError.invalidPayload

/-- Lines 38–84 of `validate_shopify_sso_token`, after base64 decoding.
The trailing 32 bytes are the signature and the rest the signed payload
(Python slicing: on fewer than 32 bytes `[-32:]` is the whole string and
`[:-32]` is empty — the source has no minimum-length check). A MAC mismatch
fails before the cipher is ever constructed. The cipher construction raises
unless the IV has exactly 16 bytes and the ciphertext a whole number of
blocks; then decryption, unpadding and JSON parsing proceed, and finally the
freshness check. -/
def validateBytes (c : TokenCrypto) (secret : String) (nowUtc : Int)
    (token_data : List Nat) : Except TokenError Payload :=
  let keys := derive_keys c.sha256 secret
  let signature := token_data.drop (token_data.length - 32)
  let encrypted_data := token_data.take (token_data.length - 32)
  if signature ≠ c.hmacSha256 keys.2 encrypted_data then
    Except.error TokenError.badSignature
  else
    let iv := encrypted_data.take 16
    let ciphertext := encrypted_data.drop 16
    if iv.length ≠ 16 then Except.error TokenError.malformed
    else if ciphertext.length % 16 ≠ 0 then Except.error TokenError.malformed
    else
      match pkcs7Unpad (c.aesCbcDecrypt keys.1 iv ciphertext) with
      | none => Except.error TokenError.malformed
      | some plaintext =>
          match c.jsonParse plaintext with
          | none => Except.error TokenError.invalidPayload
          | some customer_data => checkFreshness c.isoParse nowUtc customer_data

/-- `validate_shopify_sso_token`: base64url-decode the transport string
(failure is `Malformed`), then validate the bytes. -/
def validate_shopify_sso_token (c : TokenCrypto) (secret : String)
    (nowUtc : Int) (token : String) : Except TokenError Payload :=
  match b64urlDecode token with
  | none => Except.error TokenError.malformed
  | some token_data => validateBytes c secret nowUtc token_data

/- ### The encode path (specification §4.3) -/

/-- Modelled from the spec: the encode path of the token codec (§4.3) is not
part of this repository's source — the issuer runs on the counter-party —
so it is taken from the specification's words: serialize the assertion,
PKCS#7-pad to 128-bit blocks, AES-CBC-encrypt under the encryption key with
a 16-byte IV, HMAC-SHA256 the IV-plus-ciphertext under the signing key,
concatenate IV, ciphertext and signature, and base64url-encode with no
padding characters. The random IV is a parameter. -/
def encode_sso_token (c : TokenCrypto) (secret : String) (iv : List Nat)
    (assertion : Payload) : String :=
  let keys := derive_keys c.sha256 secret
  let ciphertext := c.aesCbcEncrypt keys.1 iv (pkcs7Pad (c.jsonSerialize assertion))
  let signature := c.hmacSha256 keys.2 (iv ++ ciphertext)
  b64urlEncodeNoPad (iv ++ ciphertext ++ signature)

/-- Flip bit `i` of a byte string: XOR byte `i / 8` with `2 ^ (i % 8)`. -/
def flipBit (bs : List Nat) (i : Nat) : List Nat :=
  bs.set (i / 8) (bs.getD (i / 8) 0 ^^^ 2 ^ (i % 8))

/- ### Session helpers, `utils/auth.py` -/

/-- Outcome of one request to the external store: a value, or a raised
exception (connection fault, timeout, API error). -/
inductive StoreResult (α : Type) where
  | ok : α → StoreResult α
  | exc : StoreResult α
deriving DecidableEq

/-- A user row as returned by the store. -/
structure UserRec where
  id : String
  email : String
deriving DecidableEq

/-- The `users` value embedded in a fetched session row: Supabase may return
the joined user as an object, as a list, or not at all; the source inspects
it with `isinstance`. -/
inductive UsersField where
  | absent : UsersField
  | dict : UserRec → UsersField
  | list : List UserRec → UsersField
deriving DecidableEq

/-- A session row as returned by the store's fetch. -/
structure SessionRow where
  token : String
  user_id : String
  users : UsersField
deriving DecidableEq

/-- `get_user_from_session` (lines 91–139 of `utils/auth.py`). An empty
token returns `None` before any store access. The store fetch — by token,
filtered to `expires_at > now` — is the parameter `fetchSessions`; the
fallback direct user query is `fetchUser`; both sit inside one `try`, whose
`except` returns `None`, so a store fault yields the same `None` as an
absent or expired session. -/
def get_user_from_session (fetchSessions : String → StoreResult (List SessionRow))
    (fetchUser : String → StoreResult (List UserRec))
    (session_token : String) : Option UserRec :=
  if session_token = "" then none
  else
    match fetchSessions session_token with
    | StoreResult.exc => none
    | StoreResult.ok rows =>
        match rows with
        | [] => none
        | session :: _ =>
            match session.users with
            | UsersField.dict u => some u
            | UsersField.list (u :: _) => some u
            | _ =>
                match fetchUser session.user_id with
                | StoreResult.exc => none
                | StoreResult.ok (u :: _) => some u
                | StoreResult.ok [] => none

/-- Modelled from the spec: the session store is an external collaborator
(§2, §3); a healthy store's delete-by-token removes every row with that
token and succeeds whether or not any row existed. -/
def storeDelete (st : List SessionRow) (token : String) :
    StoreResult (List SessionRow) :=
  StoreResult.ok (st.filter (fun r => !(r.token = token)))

/-- `delete_session` (lines 142–159 of `utils/auth.py`): issue the store
delete and return `True`; the result rows are ignored, so `True` does not
depend on whether a row existed. Only a raised store fault returns `False`.
The store operation is a parameter so both healthy and faulting stores are
expressible; the store state is threaded explicitly. -/
def delete_session (deleteOp : List SessionRow → String → StoreResult (List SessionRow))
    (st : List SessionRow) (session_token : String) : Bool × List SessionRow :=
  match deleteOp st session_token with
  | StoreResult.ok st' => (true, st')
  | StoreResult.exc => (false, st)

/- ### Optional-field normalization, `app/routes/auth/shopify_callback.py` -/

/-- The normalized identity assertion the callback builds (lines 40–45):
`email` by direct indexing, the optional fields by Python `or` over the
alternate-cased and plain spellings. -/
structure NormalizedAssertion where
  email : JVal
  first_name : Option JVal
  last_name : Option JVal
  shopify_customer_id : Option JVal
deriving DecidableEq

/-- Lines 40–45 of `shopify_callback`: `customer_data["email"]` raises
`KeyError` when absent (the surrounding `except` turns that into an error
redirect, modelled as `none`); each optional field is
`customer_data.get(alternateCased) or customer_data.get(plain)`. -/
def normalizeAssertion (customer_data : Payload) : Option NormalizedAssertion :=
  match customer_data.get "email" with
  | none => none
  | some e =>
      some { email := e
             first_name := pyOr (customer_data.get "firstName") (customer_data.get "first_name")
             last_name := pyOr (customer_data.get "lastName") (customer_data.get "last_name")
             shopify_customer_id :=
               pyOr (customer_data.get "shopifyCustomerId") (customer_data.get "shopify_customer_id") }

/- ### Concrete instantiations of the external primitives, used by
witnesses and counterexamples -/

/-- A concrete MAC model: the first 32 bytes of the zero-extended message.
It has 32-byte output and distinguishes payloads that differ in their first
32 bytes — the facts concrete checks need. -/
def cHmac : List Nat → List Nat → List Nat :=
  fun _ m => (m ++ List.replicate 32 0).take 32

/-- A concrete instantiation of the external primitives: the digest is a
fixed 32-byte value, encryption is the identity (self-inverse and
length-preserving, the properties theorems assume of the real AES-CBC),
serialization maps every payload to `pt`, parsing recognizes exactly `pt`
as `d` and exactly the timestamp string `ts` as `dt`. -/
def concreteCrypto (pt : List Nat) (d : Payload) (ts : String)
    (dt : PyDateTime) : TokenCrypto :=
  { sha256 := fun _ => List.range 32
    hmacSha256 := cHmac
    aesCbcEncrypt := fun _ _ p => p
    aesCbcDecrypt := fun _ _ ct => ct
    jsonSerialize := fun _ => pt
    jsonParse := fun b => if b = pt then some d else none
    isoParse := fun s => if s = ts then some dt else none }

def payload0 : Payload := ⟨[("email", JVal.str "a@b.com"), ("createdAt", JVal.str "t")]⟩

def epoch0 : PyDateTime := ⟨0, some 0⟩

def crypto0 : TokenCrypto := concreteCrypto [] payload0 "t" epoch0

def iv0 : List Nat := List.replicate 16 0

def ct0 : List Nat := List.replicate 16 16

def sig0 : List Nat := cHmac [] (iv0 ++ ct0)

/-- A 64-byte valid token for `crypto0`: IV, one ciphertext block (which
decrypts and unpads to the empty plaintext, parsed as `payload0`), and the
matching 32-byte MAC. -/
def tok0 : List Nat := iv0 ++ ct0 ++ sig0

/-- A payload with a creation timestamp but no email field. -/
def payloadNoEmail : Payload := ⟨[("createdAt", JVal.str "t")]⟩

def cryptoNoEmail : TokenCrypto := concreteCrypto [] payloadNoEmail "t" epoch0

/-- A payload with an email but no creation timestamp under either key. -/
def payloadNoTs : Payload := ⟨[("email", JVal.str "a@b.com")]⟩

def cryptoNoTs : TokenCrypto := concreteCrypto [] payloadNoTs "t" epoch0

/-- A 32-byte plaintext, giving a 96-byte token (96 is a multiple of 3, so
the unpadded base64 layer round-trips). -/
def pt96 : List Nat := List.replicate 32 0

def crypto96 : TokenCrypto := concreteCrypto pt96 payload0 "t" epoch0

/-- Timestamp parsed as wall-clock second 101 at offset zero; at `now = 1000`
the token is 899 seconds (14:59) old. -/
def cryptoFresh : TokenCrypto := concreteCrypto [] payload0 "t" ⟨101, some 0⟩

/-- Timestamp parsed as wall-clock second 99 at offset zero; at `now = 1000`
the token is 901 seconds (15:01) old. -/
def cryptoStale : TokenCrypto := concreteCrypto [] payload0 "t" ⟨99, some 0⟩

/-- Timestamp parsed as a naive datetime (no offset), wall-clock second 100. -/
def cryptoNaive : TokenCrypto := concreteCrypto [] payload0 "t" ⟨100, none⟩

/-- Two payloads identical except for the spelling of the first-name key,
whose value is the empty string (falsy in Python). -/
def payloadEmptyAlt : Payload :=
  ⟨[("email", JVal.str "a@b.com"), ("createdAt", JVal.str "t"),
    ("firstName", JVal.str "")]⟩

def payloadEmptyPlain : Payload :=
  ⟨[("email", JVal.str "a@b.com"), ("createdAt", JVal.str "t"),
    ("first_name", JVal.str "")]⟩

/-- Two payloads identical except for the spelling of the first-name key,
whose value is a non-empty string. -/
def payloadJohnAlt : Payload :=
  ⟨[("email", JVal.str "a@b.com"), ("createdAt", JVal.str "t"),
    ("firstName", JVal.str "John")]⟩

def payloadJohnPlain : Payload :=
  ⟨[("email", JVal.str "a@b.com"), ("createdAt", JVal.str "t"),
    ("first_name", JVal.str "John")]⟩

def cryptoJohnAlt : TokenCrypto := concreteCrypto [] payloadJohnAlt "t" epoch0

def cryptoJohnPlain : TokenCrypto := concreteCrypto [] payloadJohnPlain "t" epoch0

def cryptoEmptyAlt : TokenCrypto := concreteCrypto [] payloadEmptyAlt "t" epoch0

def cryptoEmptyPlain : TokenCrypto := concreteCrypto [] payloadEmptyPlain "t" epoch0

/-- A stored session row for the session-store checks. -/
def sessionRow1 : SessionRow := ⟨"t1", "u1", UsersField.absent⟩

/- ### Helper lemmas -/

/-- The integer guard of `checkFreshness` is exactly the source's
`diff_minutes > 15` over exact arithmetic. -/
theorem expiry_guard_iff (nowUtc : Int) (created_at : PyDateTime) :
    (15 * 60 < diffSeconds nowUtc created_at) ↔
      diffMinutes nowUtc created_at > TOKEN_EXPIRY_MINUTES := by
  unfold diffMinutes TOKEN_EXPIRY_MINUTES
  rw [gt_iff_lt, lt_div_iff₀ (by norm_num : (0:ℚ) < 60)]
  constructor
  · intro h
    have : ((15 * 60 : Int) : ℚ) < ((diffSeconds nowUtc created_at : Int) : ℚ) := by
      exact_mod_cast h
    push_cast at this ⊢
    linarith
  · intro h
    have : ((15 * 60 : Int) : ℚ) < ((diffSeconds nowUtc created_at : Int) : ℚ) := by
      push_cast
      linarith
    exact_mod_cast this

theorem takeWhile_eq_self_of {α : Type} (p : α → Bool) :
    ∀ (l : List α), (∀ a ∈ l, p a = true) → l.takeWhile p = l
  | [], _ => rfl
  | a :: l, h => by
      have ha := h a (by simp)
      simp only [List.takeWhile, ha]
      exact congrArg (a :: ·) (takeWhile_eq_self_of p l (fun x hx => h x (by simp [hx])))

theorem filter_eq_self_of {α : Type} (p : α → Bool) :
    ∀ (l : List α), (∀ a ∈ l, p a = true) → l.filter p = l
  | [], _ => rfl
  | a :: l, h => by
      have ha := h a (by simp)
      simp only [List.filter, ha]
      exact congrArg (a :: ·) (filter_eq_self_of p l (fun x hx => h x (by simp [hx])))

theorem b64Val_b64Char : ∀ n < 64, b64Val (b64Char n) = some n := by decide

theorem b64Char_ne_eq : ∀ n < 64, ¬ (b64Char n = '=') := by decide

/-- Decoding the 6-bit values an encoder produced recovers the bytes. -/
theorem b64DecodeVals_b64EncodeVals :
    ∀ (bs : List Nat), (∀ x ∈ bs, x < 256) →
      b64DecodeVals (b64EncodeVals bs) = bs
  | [], _ => rfl
  | [a], h => by
      have ha : a < 256 := h a (by simp)
      simp only [b64EncodeVals, b64DecodeVals, List.cons.injEq, and_true]
      omega
  | [a, b], h => by
      have ha : a < 256 := h a (by simp)
      have hb : b < 256 := h b (by simp)
      simp only [b64EncodeVals, b64DecodeVals, List.cons.injEq, and_true]
      constructor <;> omega
  | a :: b :: c :: rest, h => by
      have ha : a < 256 := h a (by simp)
      have hb : b < 256 := h b (by simp)
      have hc : c < 256 := h c (by simp)
      have ih := b64DecodeVals_b64EncodeVals rest (fun x hx => h x (by simp [hx]))
      simp only [b64EncodeVals, b64DecodeVals, List.cons.injEq]
      refine ⟨by omega, by omega, by omega, ih⟩

/-- The 6-bit values an encoder produces are below 64. -/
theorem b64EncodeVals_lt :
    ∀ (bs : List Nat), (∀ x ∈ bs, x < 256) →
      ∀ v ∈ b64EncodeVals bs, v < 64
  | [], _ => by simp [b64EncodeVals]
  | [a], h => by
      have ha : a < 256 := h a (by simp)
      simp only [b64EncodeVals, List.mem_cons, List.not_mem_nil, or_false]
      rintro v (rfl | rfl) <;> omega
  | [a, b], h => by
      have ha : a < 256 := h a (by simp)
      have hb : b < 256 := h b (by simp)
      simp only [b64EncodeVals, List.mem_cons, List.not_mem_nil, or_false]
      rintro v (rfl | rfl | rfl) <;> omega
  | a :: b :: c :: rest, h => by
      have ha : a < 256 := h a (by simp)
      have hb : b < 256 := h b (by simp)
      have hc : c < 256 := h c (by simp)
      have ih := b64EncodeVals_lt rest (fun x hx => h x (by simp [hx]))
      simp only [b64EncodeVals, List.mem_cons]
      rintro v (rfl | rfl | rfl | rfl | hv)
      · omega
      · omega
      · omega
      · omega
      · exact ih v hv

/-- A whole number of byte triples encodes to a whole number of quads. -/
theorem b64EncodeVals_length_mod :
    ∀ (bs : List Nat), bs.length % 3 = 0 → (b64EncodeVals bs).length % 4 = 0
  | [], _ => rfl
  | [_], h => by simp at h
  | [_, _], h => by simp at h
  | a :: b :: c :: rest, h => by
      have h3 : rest.length % 3 = 0 := by
        simp only [List.length_cons] at h
        omega
      have ih := b64EncodeVals_length_mod rest h3
      simp only [b64EncodeVals, List.length_cons]
      omega

theorem filterMap_b64Val_map :
    ∀ (vs : List Nat), (∀ v ∈ vs, v < 64) →
      (vs.map b64Char).filterMap b64Val = vs
  | [], _ => rfl
  | v :: vs, h => by
      have hv := b64Val_b64Char v (h v (by simp))
      simp only [List.map_cons, List.filterMap_cons, hv]
      exact congrArg (v :: ·) (filterMap_b64Val_map vs (fun x hx => h x (by simp [hx])))

/-- Base64url round trip: decoding an unpadded encoding recovers the bytes,
provided the byte count is a multiple of 3 (otherwise the unpadded string's
length is not a multiple of 4 and the decoder rejects it). -/
theorem b64urlDecode_encode (bs : List Nat) (hwf : ∀ x ∈ bs, x < 256)
    (h3 : bs.length % 3 = 0) :
    b64urlDecode (b64urlEncodeNoPad bs) = some bs := by
  have hlt := b64EncodeVals_lt bs hwf
  have hchars : ∀ ch ∈ (b64EncodeVals bs).map b64Char,
      ((b64Val ch).isSome || ch = '=') = true := by
    intro ch hch
    rcases List.mem_map.1 hch with ⟨v, hv, rfl⟩
    simp [b64Val_b64Char v (hlt v hv)]
  have hne : ∀ ch ∈ (b64EncodeVals bs).map b64Char, (!(ch = '=')) = true := by
    intro ch hch
    rcases List.mem_map.1 hch with ⟨v, hv, rfl⟩
    simp [b64Char_ne_eq v (hlt v hv)]
  unfold b64urlDecode b64urlEncodeNoPad
  simp only [String.data]
  rw [filter_eq_self_of _ _ hchars, takeWhile_eq_self_of _ _ hne]
  simp only [Nat.sub_self, List.drop_length, List.replicate_zero, ne_eq,
    not_true_eq_false, if_false, Nat.add_zero]
  have hlen4 : (b64EncodeVals bs).length % 4 = 0 := b64EncodeVals_length_mod bs h3
  rw [if_neg (by omega), if_neg (by simp [List.length_map, hlen4])]
  rw [filterMap_b64Val_map _ hlt, b64DecodeVals_b64EncodeVals bs hwf]

/-- PKCS#7 round trip: unpadding a padded byte string recovers it. -/
theorem pkcs7Unpad_pkcs7Pad (bs : List Nat) :
    pkcs7Unpad (pkcs7Pad bs) = some bs := by
  have hm : bs.length % 16 < 16 := Nat.mod_lt _ (by norm_num)
  obtain ⟨m, hmeq⟩ : ∃ m, 16 - bs.length % 16 = m + 1 := ⟨15 - bs.length % 16, by omega⟩
  simp only [pkcs7Pad, pkcs7Unpad]
  rw [hmeq]
  have hlen : (bs ++ List.replicate (m + 1) (m + 1)).length = bs.length + (m + 1) := by
    simp
  have hmod : (bs.length + (m + 1)) % 16 = 0 := by omega
  have hlast : (bs ++ List.replicate (m + 1) (m + 1)).getLast? = some (m + 1) := by
    rw [List.replicate_succ', ← List.append_assoc]
    exact List.getLast?_concat _
  have hdrop : (bs ++ List.replicate (m + 1) (m + 1)).drop
      ((bs ++ List.replicate (m + 1) (m + 1)).length - (m + 1)) =
      List.replicate (m + 1) (m + 1) := by
    rw [hlen, Nat.add_sub_cancel]
    exact List.drop_left bs _
  have htake : (bs ++ List.replicate (m + 1) (m + 1)).take
      ((bs ++ List.replicate (m + 1) (m + 1)).length - (m + 1)) = bs := by
    rw [hlen, Nat.add_sub_cancel]
    exact List.take_left bs _
  rw [if_neg (by omega), hlast]
  simp only [Option.getD_some]
  rw [if_pos ⟨by omega, by omega, hdrop⟩, htake]

theorem pkcs7Pad_length_mod (bs : List Nat) : (pkcs7Pad bs).length % 16 = 0 := by
  unfold pkcs7Pad
  have hm : bs.length % 16 < 16 := Nat.mod_lt _ (by norm_num)
  simp only [List.length_append, List.length_replicate]
  omega

/-- A MAC mismatch fails with BadSignature. -/
theorem validateBytes_badSig {c : TokenCrypto} {secret : String} {now : Int}
    {B : List Nat}
    (h : B.drop (B.length - 32) ≠
      c.hmacSha256 (derive_keys c.sha256 secret).2 (B.take (B.length - 32))) :
    validateBytes c secret now B = Except.error TokenError.badSignature := by
  unfold validateBytes
  simp [h]

/-- With the MAC verified and the structural stages succeeding, the validator
reduces to the freshness check. -/
theorem validateBytes_stage {c : TokenCrypto} {secret : String} {now : Int}
    {B pt : List Nat} {d : Payload}
    (hmac_ok : B.drop (B.length - 32) =
      c.hmacSha256 (derive_keys c.sha256 secret).2 (B.take (B.length - 32)))
    (hiv : ((B.take (B.length - 32)).take 16).length = 16)
    (hct : ((B.take (B.length - 32)).drop 16).length % 16 = 0)
    (hunpad : pkcs7Unpad (c.aesCbcDecrypt (derive_keys c.sha256 secret).1
        ((B.take (B.length - 32)).take 16) ((B.take (B.length - 32)).drop 16)) = some pt)
    (hjson : c.jsonParse pt = some d) :
    validateBytes c secret now B = checkFreshness c.isoParse now d := by
  simp only [validateBytes]
  rw [if_neg (by simp [hmac_ok])]
  rw [if_neg (by simp [hiv])]
  rw [if_neg (by simpa using hct)]
  simp only [hunpad, hjson]

/-- With a truthy string timestamp that parses, the freshness check is exactly
the expiry comparison. -/
theorem checkFreshness_parsed {iso : String → Option PyDateTime} {now : Int}
    {d : Payload} {s : String} {dt : PyDateTime}
    (hkey : pyOr (d.get "createdAt") (d.get "created_at") = some (JVal.str s))
    (hs : s ≠ "") (hiso : iso (replaceZ s) = some dt) :
    checkFreshness iso now d =
      (if 15 * 60 < diffSeconds now dt then Except.error TokenError.expired
       else Except.ok d) := by
  unfold checkFreshness
  rw [hkey]
  simp [truthy, hs, hiso]

/-- A creation timestamp absent under both accepted key names fails the
freshness check as InvalidPayload. -/
theorem checkFreshness_missing {iso : String → Option PyDateTime} {now : Int}
    {d : Payload}
    (h1 : d.get "createdAt" = none) (h2 : d.get "created_at" = none) :
    checkFreshness iso now d = Except.error TokenError.invalidPayload := by
  unfold checkFreshness
  rw [h1, h2]
  simp [pyOr, truthy]

theorem xor_two_pow_ne (b k : Nat) : b ^^^ 2 ^ k ≠ b := by
  intro h
  have h0 : b ^^^ (b ^^^ 2 ^ k) = b ^^^ b := congrArg (fun x => b ^^^ x) h
  rw [← Nat.xor_assoc, Nat.xor_self, Nat.zero_xor] at h0
  simp at h0

theorem flipBit_length (B : List Nat) (i : Nat) : (flipBit B i).length = B.length := by
  simp [flipBit]

/-- Setting a byte at or beyond position `k` leaves the first `k` bytes alone. -/
theorem take_set_of_le {α : Type} (B : List α) (j k : Nat) (v : α) (h : k ≤ j) :
    (B.set j v).take k = B.take k := by
  apply List.ext_getElem
  · simp
  · intro n h1 h2
    rw [List.getElem_take, List.getElem_take]
    have hn : n < k := by
      have := h1
      simp [List.length_take] at this
      omega
    exact List.getElem_set_ne (by omega) _

/-- Setting a byte before position `k` leaves the bytes from `k` on alone. -/
theorem drop_set_of_lt {α : Type} (B : List α) (j k : Nat) (v : α) (h : j < k) :
    (B.set j v).drop k = B.drop k := by
  apply List.ext_getElem
  · simp
  · intro n h1 h2
    rw [List.getElem_drop, List.getElem_drop]
    exact List.getElem_set_ne (by omega) _

/-- Setting position `j` to a different value changes the suffix from any
`k ≤ j`. -/
theorem drop_set_ne {α : Type} (B : List α) (j k : Nat) (v : α) (hk : k ≤ j)
    (hj : j < B.length) (hv : v ≠ B[j]) :
    (B.set j v).drop k ≠ B.drop k := by
  intro heq
  have hidx : k + (j - k) = j := by omega
  have h0 := congrArg (fun l => l[j - k]?) heq
  simp only [List.getElem?_drop, hidx, List.getElem?_set, if_pos rfl,
    if_pos hj] at h0
  rw [List.getElem?_eq_getElem hj] at h0
  exact hv (Option.some.inj h0)

/-- Inverting a successful validation: the MAC matched and the token has at
least 48 bytes (16-byte IV was extracted whole). -/
theorem validateBytes_ok_inv {c : TokenCrypto} {secret : String} {now : Int}
    {B : List Nat} {d : Payload}
    (h : validateBytes c secret now B = Except.ok d) :
    B.drop (B.length - 32) =
      c.hmacSha256 (derive_keys c.sha256 secret).2 (B.take (B.length - 32))
    ∧ 48 ≤ B.length := by
  by_cases h1 : B.drop (B.length - 32) ≠
      c.hmacSha256 (derive_keys c.sha256 secret).2 (B.take (B.length - 32))
  · rw [validateBytes_badSig h1] at h
    exact absurd h (by simp)
  · push_neg at h1
    refine ⟨h1, ?_⟩
    simp only [validateBytes] at h
    rw [if_neg (by simp [h1])] at h
    by_cases h2 : (List.take 16 (List.take (B.length - 32) B)).length = 16
    · simp [List.length_take] at h2
      omega
    · rw [if_pos (by simpa using h2)] at h
      exact absurd h (by simp)

/- ## Claim theorems -/

/-- C1: whenever the base64url-decoded bytes have a trailing 32-byte block
that differs from HMAC-SHA256(signing key, remaining bytes), validation
returns BadSignature for every possible decryption function — so no
decryption is attempted. Consequently, for a token that validates
successfully, flipping any single bit in the signature region (the trailing
32 bytes) fails with BadSignature, and flipping any single bit in the
ciphertext region (bytes 16 through length−32) fails with BadSignature under
the modelling hypothesis that the HMAC does not collide at the flipped
payload (the standing assumption about the real HMAC-SHA256; a collision is
neither provable nor refutable for a concrete hash). In both cases decode
fails and never succeeds. -/
theorem mac_mismatch_fails_closed_and_tamper_detected
    (c : TokenCrypto) (secret : String) (now : Int) :
    (∀ (dec : List Nat → List Nat → List Nat → List Nat) (B : List Nat),
        B.drop (B.length - 32) ≠
          c.hmacSha256 (derive_keys c.sha256 secret).2 (B.take (B.length - 32)) →
        validateBytes { c with aesCbcDecrypt := dec } secret now B =
          Except.error TokenError.badSignature)
    ∧ (∀ (B : List Nat) (d : Payload) (i : Nat),
        validateBytes c secret now B = Except.ok d →
        (((B.length - 32) * 8 ≤ i → i < B.length * 8 →
          validateBytes c secret now (flipBit B i) =
            Except.error TokenError.badSignature)
        ∧ (16 * 8 ≤ i → i < (B.length - 32) * 8 →
            c.hmacSha256 (derive_keys c.sha256 secret).2
                ((flipBit B i).take ((flipBit B i).length - 32)) ≠
              c.hmacSha256 (derive_keys c.sha256 secret).2
                (B.take (B.length - 32)) →
            validateBytes c secret now (flipBit B i) =
              Except.error TokenError.badSignature))) := by
  constructor
  · intro dec B h
    exact validateBytes_badSig h
  · intro B d i hok
    obtain ⟨hsig, hlen⟩ := validateBytes_ok_inv hok
    constructor
    · intro hi1 hi2
      have hj1 : B.length - 32 ≤ i / 8 := (Nat.le_div_iff_mul_le (by norm_num)).2 hi1
      have hj2 : i / 8 < B.length := (Nat.div_lt_iff_lt_mul (by norm_num)).2 hi2
      apply validateBytes_badSig
      rw [flipBit_length]
      unfold flipBit
      rw [take_set_of_le _ _ _ _ hj1, ← hsig]
      exact drop_set_ne _ _ _ _ hj1 hj2 (by
        rw [List.getD_eq_getElem _ _ hj2]
        exact xor_two_pow_ne _ _)
    · intro hi1 hi2 hcoll
      have hj2 : i / 8 < B.length - 32 := (Nat.div_lt_iff_lt_mul (by norm_num)).2 hi2
      apply validateBytes_badSig
      rw [flipBit_length] at hcoll ⊢
      unfold flipBit at hcoll ⊢
      rw [drop_set_of_lt _ _ _ _ hj2, hsig]
      exact Ne.symm hcoll

/-- Witness for C1: a 3-byte token with a mismatched MAC is BadSignature for
an arbitrary decryption function, and flipping bit 260 (signature region) or
bit 130 (ciphertext region) of the valid 64-byte token `tok0` each yield
BadSignature. -/
theorem mac_mismatch_fails_closed_and_tamper_detected_witness :
    validateBytes { crypto0 with aesCbcDecrypt := fun _ _ x => x } "s" 0 [1, 2, 3] =
      Except.error TokenError.badSignature
    ∧ validateBytes crypto0 "s" 0 (flipBit tok0 260) =
      Except.error TokenError.badSignature
    ∧ validateBytes crypto0 "s" 0 (flipBit tok0 130) =
      Except.error TokenError.badSignature :=
  ⟨(mac_mismatch_fails_closed_and_tamper_detected crypto0 "s" 0).1 _ [1, 2, 3]
      (by decide),
   ((mac_mismatch_fails_closed_and_tamper_detected crypto0 "s" 0).2 tok0 payload0 260
      (by decide)).1 (by decide) (by decide),
   ((mac_mismatch_fails_closed_and_tamper_detected crypto0 "s" 0).2 tok0 payload0 130
      (by decide)).2 (by decide) (by decide) (by decide)⟩

/-- C2: for a token that passes signature verification, decryption, unpadding
and payload parsing with a truthy, parseable creation timestamp, the age the
validator uses is (now − created_at)/60 minutes where "now" is the naive UTC
wall-clock reading stamped with created_at's own offset — the offset cancels,
so the age is (nowWall − createdWall)/60 for every offset rather than the
true-UTC age — and the result is Expired exactly when that age exceeds 15
minutes, the parsed payload otherwise; in particular a token 899 seconds
(14:59) old decodes and one 901 seconds (15:01) old is Expired, as the
witness instantiates. -/
theorem expiry_same_offset_and_boundary
    (c : TokenCrypto) (secret : String) (now : Int) (B pt : List Nat)
    (d : Payload) (s : String) (dt : PyDateTime)
    (hmac_ok : B.drop (B.length - 32) =
      c.hmacSha256 (derive_keys c.sha256 secret).2 (B.take (B.length - 32)))
    (hiv : ((B.take (B.length - 32)).take 16).length = 16)
    (hct : ((B.take (B.length - 32)).drop 16).length % 16 = 0)
    (hunpad : pkcs7Unpad (c.aesCbcDecrypt (derive_keys c.sha256 secret).1
        ((B.take (B.length - 32)).take 16) ((B.take (B.length - 32)).drop 16)) = some pt)
    (hjson : c.jsonParse pt = some d)
    (hkey : pyOr (d.get "createdAt") (d.get "created_at") = some (JVal.str s))
    (hs : s ≠ "") (hiso : c.isoParse (replaceZ s) = some dt) :
    (∀ off : Option Int, diffMinutes now { wall := dt.wall, tz := off } =
        ((now - dt.wall : Int) : ℚ) / 60)
    ∧ (validateBytes c secret now B = Except.error TokenError.expired ↔
        diffMinutes now dt > TOKEN_EXPIRY_MINUTES)
    ∧ (validateBytes c secret now B = Except.ok d ↔
        ¬ diffMinutes now dt > TOKEN_EXPIRY_MINUTES) := by
  have hstage := @validateBytes_stage c secret now B pt d hmac_ok hiv hct hunpad hjson
  have hparsed := @checkFreshness_parsed c.isoParse now d s dt hkey hs hiso
  refine ⟨?_, ?_, ?_⟩
  · intro off
    have hds : diffSeconds now { wall := dt.wall, tz := off } = now - dt.wall := by
      unfold diffSeconds
      cases off <;> simp
    unfold diffMinutes
    rw [hds]
  · rw [hstage, hparsed]
    by_cases hg : 15 * 60 < diffSeconds now dt
    · rw [if_pos hg]
      simp [(expiry_guard_iff now dt).1 hg]
    · rw [if_neg hg]
      have hng : ¬ diffMinutes now dt > TOKEN_EXPIRY_MINUTES :=
        fun hgt => hg ((expiry_guard_iff now dt).2 hgt)
      simp [hng]
  · rw [hstage, hparsed]
    by_cases hg : 15 * 60 < diffSeconds now dt
    · rw [if_pos hg]
      simp [(expiry_guard_iff now dt).1 hg]
    · rw [if_neg hg]
      have hng : ¬ diffMinutes now dt > TOKEN_EXPIRY_MINUTES :=
        fun hgt => hg ((expiry_guard_iff now dt).2 hgt)
      simp [hng]

/-- Witness for C2: the same 64-byte token is accepted at age 899 seconds
(created at wall-clock 101, validated at 1000) and Expired at age 901
seconds (created at 99, validated at 1000). -/
theorem expiry_same_offset_and_boundary_witness :
    validateBytes cryptoFresh "s" 1000 tok0 = Except.ok payload0
    ∧ validateBytes cryptoStale "s" 1000 tok0 = Except.error TokenError.expired :=
  ⟨((expiry_same_offset_and_boundary cryptoFresh "s" 1000 tok0 [] payload0 "t"
        ⟨101, some 0⟩ (by decide) (by decide) (by decide) (by decide) (by decide)
        (by decide) (by decide) (by decide)).2.2).mpr
      (fun hgt => absurd ((expiry_guard_iff 1000 ⟨101, some 0⟩).2 hgt) (by decide)),
   ((expiry_same_offset_and_boundary cryptoStale "s" 1000 tok0 [] payload0 "t"
        ⟨99, some 0⟩ (by decide) (by decide) (by decide) (by decide) (by decide)
        (by decide) (by decide) (by decide)).2.1).mpr
      ((expiry_guard_iff 1000 ⟨99, some 0⟩).1 (by decide))⟩

/-- C3 counterexample: with a 32-byte digest (the length SHA-256 always
produces), the signing key returned by key derivation has 16 bytes, not the
32 bytes the claim's contract `(encryption_key: bytes[16], signing_key:
bytes[32])` asserts. -/
theorem derive_keys_signing_key_not_32 :
    ((fun _ => List.range 32) (strBytes "s")).length = 32
    ∧ (derive_keys (fun _ => List.range 32) "s").2.length = 16
    ∧ ¬ (derive_keys (fun _ => List.range 32) "s").2.length = 32 := by decide

/-- C3 amended: for every non-empty secret, key derivation computes a single
SHA-256 hash of the secret and splits the 32-byte digest deterministically
into two disjoint halves: bytes [0:16] are the encryption key and bytes
[16:32] the signing key — so the encryption key is not reused for signing —
and both keys have 16 bytes, their concatenation being the whole digest.
(The claim typed the signing key bytes[32]; the slice [16:32] has 16.) -/
theorem derive_keys_split (sha256 : List Nat → List Nat) (secret : String)
    (hsecret : secret ≠ "")
    (hlen : (sha256 (strBytes secret)).length = 32) :
    (derive_keys sha256 secret).1.length = 16
    ∧ (derive_keys sha256 secret).2.length = 16
    ∧ (derive_keys sha256 secret).1 ++ (derive_keys sha256 secret).2 =
        sha256 (strBytes secret) := by
  have h1 : (derive_keys sha256 secret).1 = (sha256 (strBytes secret)).take 16 := rfl
  have h2 : (derive_keys sha256 secret).2 =
      ((sha256 (strBytes secret)).drop 16).take 16 := rfl
  have hdrop : ((sha256 (strBytes secret)).drop 16).take 16 =
      (sha256 (strBytes secret)).drop 16 := by
    apply List.take_of_length_le
    rw [List.length_drop, hlen]
  refine ⟨?_, ?_, ?_⟩
  · rw [h1, List.length_take, hlen]
    norm_num
  · rw [h2, hdrop, List.length_drop, hlen]
  · rw [h1, h2, hdrop]
    exact List.take_append_drop 16 _

/-- Witness for C3 at a concrete secret and a concrete 32-byte digest
function. -/
theorem derive_keys_split_witness :
    "s" ≠ ""
    ∧ ((fun _ => List.range 32) (strBytes "s")).length = 32
    ∧ ((derive_keys (fun _ => List.range 32) "s").1.length = 16
       ∧ (derive_keys (fun _ => List.range 32) "s").2.length = 16
       ∧ (derive_keys (fun _ => List.range 32) "s").1 ++
           (derive_keys (fun _ => List.range 32) "s").2 =
           (fun _ => List.range 32) (strBytes "s")) :=
  ⟨by decide, by decide, derive_keys_split (fun _ => List.range 32) "s" (by decide) (by decide)⟩

/-- C10: a naive parsed creation timestamp (no timezone offset) is not
rejected: the validator strips the timezone from utcnow as well (tzinfo
becomes the same None), the age is the naive wall-clock difference over 60,
and a naive-timestamp token within the window is accepted. -/
theorem naive_timestamp_accepted
    (c : TokenCrypto) (secret : String) (now : Int) (B pt : List Nat)
    (d : Payload) (s : String) (w : Int)
    (hmac_ok : B.drop (B.length - 32) =
      c.hmacSha256 (derive_keys c.sha256 secret).2 (B.take (B.length - 32)))
    (hiv : ((B.take (B.length - 32)).take 16).length = 16)
    (hct : ((B.take (B.length - 32)).drop 16).length % 16 = 0)
    (hunpad : pkcs7Unpad (c.aesCbcDecrypt (derive_keys c.sha256 secret).1
        ((B.take (B.length - 32)).take 16) ((B.take (B.length - 32)).drop 16)) = some pt)
    (hjson : c.jsonParse pt = some d)
    (hkey : pyOr (d.get "createdAt") (d.get "created_at") = some (JVal.str s))
    (hs : s ≠ "")
    (hiso : c.isoParse (replaceZ s) = some { wall := w, tz := none })
    (hfresh : ¬ diffMinutes now { wall := w, tz := none } > TOKEN_EXPIRY_MINUTES) :
    diffMinutes now { wall := w, tz := none } = ((now - w : Int) : ℚ) / 60
    ∧ validateBytes c secret now B = Except.ok d := by
  have hstage := @validateBytes_stage c secret now B pt d hmac_ok hiv hct hunpad hjson
  have hparsed := @checkFreshness_parsed c.isoParse now d s ⟨w, none⟩ hkey hs hiso
  constructor
  · have hds : diffSeconds now { wall := w, tz := none } = now - w := by
      unfold diffSeconds
      simp
    unfold diffMinutes
    rw [hds]
  · rw [hstage, hparsed,
      if_neg (fun hg => hfresh ((expiry_guard_iff now ⟨w, none⟩).1 hg))]

/-- Witness for C10: a token whose timestamp parses as naive wall-clock
second 100, validated at 999 (age 899 seconds), is accepted. -/
theorem naive_timestamp_accepted_witness :
    diffMinutes 999 { wall := 100, tz := none } = ((999 - 100 : Int) : ℚ) / 60
    ∧ validateBytes cryptoNaive "s" 999 tok0 = Except.ok payload0 :=
  naive_timestamp_accepted cryptoNaive "s" 999 tok0 [] payload0 "t" 100
    (by decide) (by decide) (by decide) (by decide) (by decide) (by decide)
    (by decide) (by decide)
    (fun hgt => absurd ((expiry_guard_iff 999 ⟨100, none⟩).2 hgt) (by decide))

/-- C7 counterexample: a record carrying a fresh creation timestamp but no
email field is returned successfully by the validator — not rejected as
InvalidPayload — because the source checks only the timestamp. -/
theorem decode_accepts_missing_email :
    Payload.get payloadNoEmail "email" = none
    ∧ validateBytes cryptoNoEmail "s" 0 tok0 = Except.ok payloadNoEmail
    ∧ ¬ validateBytes cryptoNoEmail "s" 0 tok0 =
        Except.error TokenError.invalidPayload := by decide

/-- C7 amended: for every token that decrypts and parses as a structured
record, the validator returns InvalidPayload when the creation timestamp is
absent under both accepted key names (createdAt / created_at); the email
field is never inspected — any record with a truthy, parseable, fresh
creation timestamp is returned as-is whether or not it has an email (the
callback's direct indexing, not decode, fails on a missing email). -/
theorem missing_timestamp_rejected_email_unchecked
    (c : TokenCrypto) (secret : String) (now : Int) (B pt : List Nat)
    (d : Payload)
    (hmac_ok : B.drop (B.length - 32) =
      c.hmacSha256 (derive_keys c.sha256 secret).2 (B.take (B.length - 32)))
    (hiv : ((B.take (B.length - 32)).take 16).length = 16)
    (hct : ((B.take (B.length - 32)).drop 16).length % 16 = 0)
    (hunpad : pkcs7Unpad (c.aesCbcDecrypt (derive_keys c.sha256 secret).1
        ((B.take (B.length - 32)).take 16) ((B.take (B.length - 32)).drop 16)) = some pt)
    (hjson : c.jsonParse pt = some d) :
    (d.get "createdAt" = none → d.get "created_at" = none →
        validateBytes c secret now B = Except.error TokenError.invalidPayload)
    ∧ (∀ (s : String) (dt : PyDateTime),
        pyOr (d.get "createdAt") (d.get "created_at") = some (JVal.str s) →
        s ≠ "" → c.isoParse (replaceZ s) = some dt →
        ¬ diffMinutes now dt > TOKEN_EXPIRY_MINUTES →
        validateBytes c secret now B = Except.ok d) := by
  have hstage := @validateBytes_stage c secret now B pt d hmac_ok hiv hct hunpad hjson
  constructor
  · intro h1 h2
    rw [hstage]
    exact checkFreshness_missing h1 h2
  · intro s dt hkey hs hiso hfresh
    rw [hstage, @checkFreshness_parsed c.isoParse now d s dt hkey hs hiso,
      if_neg (fun hg => hfresh ((expiry_guard_iff now dt).1 hg))]

/-- Witness for C7: a record with email but no timestamp is InvalidPayload;
a record with a fresh timestamp but no email is accepted. -/
theorem missing_timestamp_rejected_email_unchecked_witness :
    validateBytes cryptoNoTs "s" 0 tok0 = Except.error TokenError.invalidPayload
    ∧ validateBytes cryptoNoEmail "s" 0 tok0 = Except.ok payloadNoEmail :=
  ⟨(missing_timestamp_rejected_email_unchecked cryptoNoTs "s" 0 tok0 [] payloadNoTs
      (by decide) (by decide) (by decide) (by decide) (by decide)).1
      (by decide) (by decide),
   (missing_timestamp_rejected_email_unchecked cryptoNoEmail "s" 0 tok0 [] payloadNoEmail
      (by decide) (by decide) (by decide) (by decide) (by decide)).2 "t" epoch0
      (by decide) (by decide) (by decide)
      (fun hgt => absurd ((expiry_guard_iff 0 epoch0).2 hgt) (by decide))⟩

/-- C9 counterexample: a 12-character transport string decodes to 9 bytes —
fewer than 49 — yet validation returns BadSignature, not Malformed: the
source has no minimum-length check, so the trailing-32-byte slice of a
9-byte string (the whole string) is compared against the 32-byte MAC and
fails that comparison first. -/
theorem short_token_badSignature_not_malformed :
    b64urlDecode "QUJDREVGR0hJ" = some [65, 66, 67, 68, 69, 70, 71, 72, 73]
    ∧ validate_shopify_sso_token crypto0 "s" 0 "QUJDREVGR0hJ" =
        Except.error TokenError.badSignature
    ∧ ¬ validate_shopify_sso_token crypto0 "s" 0 "QUJDREVGR0hJ" =
        Except.error TokenError.malformed := by decide

/-- C9 amended: with a length-preserving decryption (as AES-CBC is), every
transport string whose base64url decoding yields fewer than 49 bytes fails
to validate — BadSignature when the trailing-32-byte MAC comparison fails,
Malformed otherwise (IV shorter than 16 bytes, or empty ciphertext whose
unpadding fails) — and never succeeds. -/
theorem short_token_always_fails
    (c : TokenCrypto) (secret : String) (now : Int) (s : String) (B : List Nat)
    (hdeclen : ∀ k iv ct, (c.aesCbcDecrypt k iv ct).length = ct.length)
    (hb64 : b64urlDecode s = some B) (hshort : B.length < 49) :
    validate_shopify_sso_token c secret now s = Except.error TokenError.badSignature
    ∨ validate_shopify_sso_token c secret now s = Except.error TokenError.malformed := by
  unfold validate_shopify_sso_token
  rw [hb64]
  by_cases hmac : B.drop (B.length - 32) ≠
      c.hmacSha256 (derive_keys c.sha256 secret).2 (B.take (B.length - 32))
  · exact Or.inl (validateBytes_badSig hmac)
  · push_neg at hmac
    right
    simp only [validateBytes]
    rw [if_neg (by simp [hmac])]
    by_cases hiv : (List.take 16 (List.take (B.length - 32) B)).length = 16
    · have hlen48 : B.length = 48 := by
        rw [List.length_take, List.length_take] at hiv
        omega
      rw [if_neg (by simp [hiv])]
      have hctlen : (List.drop 16 (List.take (B.length - 32) B)).length = 0 := by
        simp only [List.length_drop, List.length_take]
        omega
      rw [if_neg (by simp [hctlen])]
      have hnone : pkcs7Unpad (c.aesCbcDecrypt (derive_keys c.sha256 secret).1
          (List.take 16 (List.take (B.length - 32) B))
          (List.drop 16 (List.take (B.length - 32) B))) = none := by
        unfold pkcs7Unpad
        rw [if_pos (Or.inl (by rw [hdeclen, hctlen]))]
      rw [hnone]
    · rw [if_pos (by simpa using hiv)]

/-- Witness for C9: the 9-byte token string fails (as BadSignature). -/
theorem short_token_always_fails_witness :
    validate_shopify_sso_token crypto0 "s" 0 "QUJDREVGR0hJ" =
        Except.error TokenError.badSignature
    ∨ validate_shopify_sso_token crypto0 "s" 0 "QUJDREVGR0hJ" =
        Except.error TokenError.malformed :=
  short_token_always_fails crypto0 "s" 0 "QUJDREVGR0hJ"
    [65, 66, 67, 68, 69, 70, 71, 72, 73] (fun _ _ _ => rfl) (by decide) (by decide)

/-- C4 counterexample: the inner 64-byte token (IV, one ciphertext block,
32-byte MAC) is itself valid — the byte-level validator accepts it — yet
decode(encode(A)) fails as Malformed: 64 is not a multiple of 3, so the
specification's unpadded base64 encoding has 86 characters, a length not a
multiple of 4, which `urlsafe_b64decode` rejects as incorrect padding. -/
theorem roundtrip_broken_by_unpadded_base64 :
    validateBytes crypto0 "s" 0 tok0 = Except.ok payload0
    ∧ encode_sso_token crypto0 "s" iv0 payload0 = b64urlEncodeNoPad tok0
    ∧ validate_shopify_sso_token crypto0 "s" 0
        (encode_sso_token crypto0 "s" iv0 payload0) =
        Except.error TokenError.malformed := by decide

/-- C4 amended: round trip. The encode path is modelled from the
specification (§4.3, the issuer is not part of this repository) and emits
unpadded base64url, while the source decoder requires a padded-length
input; decode(encode(A)) therefore succeeds exactly on inner byte strings
whose length is a multiple of 3. Under that hypothesis — and the modelling
hypotheses that the primitives behave as the real ones do (16-byte IV,
32-byte MAC, decryption inverts encryption and preserves length,
serialization parses back, byte values below 256) — decode(encode(A))
succeeds and returns A whenever A carries a truthy, parseable creation
timestamp within the 15-minute window. -/
theorem decode_encode_roundtrip
    (c : TokenCrypto) (secret : String) (now : Int) (iv ct sig : List Nat)
    (A : Payload) (s : String) (dt : PyDateTime)
    (hct : ct = c.aesCbcEncrypt (derive_keys c.sha256 secret).1 iv
      (pkcs7Pad (c.jsonSerialize A)))
    (hsig : sig = c.hmacSha256 (derive_keys c.sha256 secret).2 (iv ++ ct))
    (hiv16 : iv.length = 16) (hsig32 : sig.length = 32)
    (hctlen : ct.length = (pkcs7Pad (c.jsonSerialize A)).length)
    (hdec : c.aesCbcDecrypt (derive_keys c.sha256 secret).1 iv ct =
      pkcs7Pad (c.jsonSerialize A))
    (hwf : ∀ x ∈ iv ++ ct ++ sig, x < 256)
    (h3 : (iv ++ ct ++ sig).length % 3 = 0)
    (hjson : c.jsonParse (c.jsonSerialize A) = some A)
    (hkey : pyOr (A.get "createdAt") (A.get "created_at") = some (JVal.str s))
    (hs : s ≠ "") (hiso : c.isoParse (replaceZ s) = some dt)
    (hfresh : ¬ diffMinutes now dt > TOKEN_EXPIRY_MINUTES) :
    validate_shopify_sso_token c secret now (encode_sso_token c secret iv A) =
      Except.ok A := by
  have henc : encode_sso_token c secret iv A = b64urlEncodeNoPad (iv ++ ct ++ sig) := by
    simp only [encode_sso_token]
    rw [← hct, ← hsig]
  unfold validate_shopify_sso_token
  rw [henc, b64urlDecode_encode _ hwf h3]
  show validateBytes c secret now (iv ++ ct ++ sig) = Except.ok A
  have htake16 : (iv ++ ct).take 16 = iv := by
    rw [← hiv16]
    exact List.take_left iv ct
  have hdrop16 : (iv ++ ct).drop 16 = ct := by
    rw [← hiv16]
    exact List.drop_left iv ct
  have hLen : ((iv ++ ct) ++ sig).length - 32 = (iv ++ ct).length := by
    simp [List.length_append, hsig32]
    omega
  have htakeB : ((iv ++ ct) ++ sig).take (((iv ++ ct) ++ sig).length - 32) = iv ++ ct := by
    rw [hLen]
    exact List.take_left _ _
  have hdropB : ((iv ++ ct) ++ sig).drop (((iv ++ ct) ++ sig).length - 32) = sig := by
    rw [hLen]
    exact List.drop_left _ _
  have hstage := @validateBytes_stage c secret now ((iv ++ ct) ++ sig)
    (c.jsonSerialize A) A
    (by rw [hdropB, htakeB, hsig])
    (by rw [htakeB, htake16, hiv16])
    (by rw [htakeB, hdrop16, hctlen]; exact pkcs7Pad_length_mod _)
    (by rw [htakeB, htake16, hdrop16, hdec]; exact pkcs7Unpad_pkcs7Pad _)
    hjson
  rw [hstage, @checkFreshness_parsed c.isoParse now A s dt hkey hs hiso,
    if_neg (fun hg => hfresh ((expiry_guard_iff now dt).1 hg))]

/-- Witness for C4 at a 96-byte token (96 is a multiple of 3): the encoded
assertion decodes back to itself 899 seconds after creation. -/
theorem decode_encode_roundtrip_witness :
    validate_shopify_sso_token crypto96 "s" 899
        (encode_sso_token crypto96 "s" iv0 payload0) = Except.ok payload0 :=
  decode_encode_roundtrip crypto96 "s" 899 iv0 (pkcs7Pad pt96)
    ((iv0 ++ pkcs7Pad pt96).take 32) payload0 "t" epoch0
    (by decide) (by decide) (by decide) (by decide) (by decide) (by decide)
    (by decide) (by decide) (by decide) (by decide) (by decide) (by decide)
    (fun hgt => absurd ((expiry_guard_iff 899 epoch0).2 hgt) (by decide))

/-- C5 counterexample: a store-layer fault (raised exception) yields the
very same outcome, None, as a token the store does not return under its
filter — the kinds are collapsed by the broad `except`, not kept distinct. -/
theorem store_fault_collapsed_with_invalid :
    get_user_from_session (fun _ => StoreResult.exc) (fun _ => StoreResult.exc) "t1" = none
    ∧ get_user_from_session (fun _ => StoreResult.ok []) (fun _ => StoreResult.exc) "t1" = none
    ∧ get_user_from_session (fun _ => StoreResult.exc) (fun _ => StoreResult.exc) "t1" =
        get_user_from_session (fun _ => StoreResult.ok []) (fun _ => StoreResult.exc) "t1" :=
  ⟨rfl, rfl, rfl⟩

/-- C5 amended: an empty session token returns None for every store (the
store is never consulted); a token the store does not return under its
`expires_at > now` filter yields None; and a store-layer fault is caught
and also yields None — the fault is collapsed into the same outcome as an
invalid or expired credential rather than surfaced as a distinct kind (the
distinction survives only in a printed log line). -/
theorem session_auth_outcomes
    (fetchSessions : String → StoreResult (List SessionRow))
    (fetchUser : String → StoreResult (List UserRec)) (t : String) :
    (∀ (fs : String → StoreResult (List SessionRow))
       (fu : String → StoreResult (List UserRec)),
        get_user_from_session fs fu "" = none)
    ∧ (fetchSessions t = StoreResult.ok [] →
        get_user_from_session fetchSessions fetchUser t = none)
    ∧ (fetchSessions t = StoreResult.exc →
        get_user_from_session fetchSessions fetchUser t = none) := by
  refine ⟨fun fs fu => rfl, ?_, ?_⟩
  · intro h
    unfold get_user_from_session
    by_cases ht : t = ""
    · rw [if_pos ht]
    · rw [if_neg ht, h]
  · intro h
    unfold get_user_from_session
    by_cases ht : t = ""
    · rw [if_pos ht]
    · rw [if_neg ht, h]

/-- Witness for C5 at concrete stores and tokens. -/
theorem session_auth_outcomes_witness :
    get_user_from_session (fun _ => StoreResult.ok []) (fun _ => StoreResult.exc) "" = none
    ∧ get_user_from_session (fun _ => StoreResult.ok []) (fun _ => StoreResult.exc) "t1" = none
    ∧ get_user_from_session (fun _ => StoreResult.exc) (fun _ => StoreResult.exc) "t1" = none :=
  ⟨(session_auth_outcomes (fun _ => StoreResult.ok []) (fun _ => StoreResult.exc) "x").1 _ _,
   (session_auth_outcomes (fun _ => StoreResult.ok []) (fun _ => StoreResult.exc) "t1").2.1 rfl,
   (session_auth_outcomes (fun _ => StoreResult.exc) (fun _ => StoreResult.exc) "t1").2.2 rfl⟩

/-- C6 counterexample: revoking the same issued token twice against a
healthy store returns True both times — the source returns True whenever
the delete call does not raise, ignoring the returned rows — so the second
call does not return False as the claim states. -/
theorem revoke_twice_true_true :
    (delete_session storeDelete [sessionRow1] "t1").1 = true
    ∧ (delete_session storeDelete
        (delete_session storeDelete [sessionRow1] "t1").2 "t1").1 = true
    ∧ ¬ (delete_session storeDelete
        (delete_session storeDelete [sessionRow1] "t1").2 "t1").1 = false := by
  decide

/-- C6 amended: `delete_session` returns True whenever the store delete call
succeeds, regardless of whether a record with that token existed — calling
it twice on the same token returns True then True — and revoking an absent
or already-revoked token never errors; the store-state change is
idempotent. -/
theorem revoke_returns_true_and_is_idempotent (st : List SessionRow) (t : String) :
    (delete_session storeDelete st t).1 = true
    ∧ (delete_session storeDelete (delete_session storeDelete st t).2 t).1 = true
    ∧ (delete_session storeDelete (delete_session storeDelete st t).2 t).2 =
        (delete_session storeDelete st t).2 := by
  refine ⟨rfl, rfl, ?_⟩
  simp only [delete_session, storeDelete]
  rw [List.filter_filter]
  simp

/-- C8 counterexample: two payloads identical except that one spells the
first-name key alternate-cased and the other plain, with the empty string
(falsy) as its value, each decode successfully, yet they normalize to
different assertions: Python `or` skips the falsy alternate-cased value, so
the alternate-cased spelling normalizes to None where the plain spelling
normalizes to the empty string. -/
theorem empty_optional_field_normalizes_differently :
    validateBytes cryptoEmptyAlt "s" 0 tok0 = Except.ok payloadEmptyAlt
    ∧ validateBytes cryptoEmptyPlain "s" 0 tok0 = Except.ok payloadEmptyPlain
    ∧ ¬ normalizeAssertion payloadEmptyAlt = normalizeAssertion payloadEmptyPlain := by
  decide

/-- C8 amended: two successfully decoded payloads that agree on every key the
callback normalization reads, except that one carries the value under the
alternate-cased spelling of one optional field and the other under the plain
spelling, normalize to the same assertion provided the shared value is
truthy (for a falsy value such as the empty string, Python `or` collapses
the alternate-cased spelling to absence and the two differ — see the
counterexample). -/
theorem optional_field_spelling_equivalent
    (c₁ c₂ : TokenCrypto) (secret₁ secret₂ : String) (now₁ now₂ : Int)
    (B₁ B₂ : List Nat) (d₁ d₂ : Payload) (altKey plainKey : String) (v : JVal)
    (hdec₁ : validateBytes c₁ secret₁ now₁ B₁ = Except.ok d₁)
    (hdec₂ : validateBytes c₂ secret₂ now₂ B₂ = Except.ok d₂)
    (hpair : (altKey, plainKey) = ("firstName", "first_name")
      ∨ (altKey, plainKey) = ("lastName", "last_name")
      ∨ (altKey, plainKey) = ("shopifyCustomerId", "shopify_customer_id"))
    (hv : truthy (some v) = true)
    (h1a : d₁.get altKey = some v) (h1p : d₁.get plainKey = none)
    (h2a : d₂.get altKey = none) (h2p : d₂.get plainKey = some v)
    (hoth : ∀ k ∈ (["email", "firstName", "first_name", "lastName",
        "last_name", "shopifyCustomerId", "shopify_customer_id"] : List String),
        k ≠ altKey → k ≠ plainKey → d₁.get k = d₂.get k) :
    Except.map normalizeAssertion (validateBytes c₁ secret₁ now₁ B₁) =
      Except.map normalizeAssertion (validateBytes c₂ secret₂ now₂ B₂) := by
  rw [hdec₁, hdec₂]
  simp only [Except.map]
  congr 1
  rcases hpair with h | h | h <;>
    · rw [Prod.mk.injEq] at h
      obtain ⟨rfl, rfl⟩ := h
      unfold normalizeAssertion
      rw [hoth "email" (by simp) (by decide) (by decide)]
      rw [h1a, h1p, h2a, h2p]
      first
      | rw [hoth "lastName" (by simp) (by decide) (by decide),
          hoth "last_name" (by simp) (by decide) (by decide),
          hoth "shopifyCustomerId" (by simp) (by decide) (by decide),
          hoth "shopify_customer_id" (by simp) (by decide) (by decide)]
      | rw [hoth "firstName" (by simp) (by decide) (by decide),
          hoth "first_name" (by simp) (by decide) (by decide),
          hoth "shopifyCustomerId" (by simp) (by decide) (by decide),
          hoth "shopify_customer_id" (by simp) (by decide) (by decide)]
      | rw [hoth "firstName" (by simp) (by decide) (by decide),
          hoth "first_name" (by simp) (by decide) (by decide),
          hoth "lastName" (by simp) (by decide) (by decide),
          hoth "last_name" (by simp) (by decide) (by decide)]
      cases hde : d₂.get "email" <;>
        simp [pyOr, hv, show truthy none = false from rfl]

/-- Witness for C8: payloads carrying first name "John" under the two
spellings normalize identically after decoding. -/
theorem optional_field_spelling_equivalent_witness :
    Except.map normalizeAssertion (validateBytes cryptoJohnAlt "s" 0 tok0) =
      Except.map normalizeAssertion (validateBytes cryptoJohnPlain "s" 0 tok0) :=
  optional_field_spelling_equivalent cryptoJohnAlt cryptoJohnPlain "s" "s" 0 0
    tok0 tok0 payloadJohnAlt payloadJohnPlain "firstName" "first_name"
    (JVal.str "John") (by decide) (by decide) (Or.inl rfl) (by decide)
    (by decide) (by decide) (by decide) (by decide) (by decide)
